import Mathlib

/-!
Verification development for the `prescripto-store` pharmacy platform.

The definitions below are a shallow embedding of the prescription-intake
pipeline and its order gate:

* `backend/src/utils/ocrProcessor.js` — `processOCR`, `extractPrescriptionData`
  (heuristic field/medication parser over raw OCR text);
* `backend/src/controllers/prescriptionController.js` — `uploadPrescription`,
  `verifyPrescription`, `reprocessPrescription`;
* `backend/src/controllers/orderController.js` — `createOrder` (order gate);
* `backend/src/models/Prescription.js` — schema virtuals and pre-save hook;
* `src/pages/PrescriptionUpload.jsx` — the client-side OCR/parse flow
  (`processWithOCR`, `parsePrescriptionText`, `extractField`,
  `extractMedications`).

JavaScript strings are modelled as Lean `String`/`List Char`; the concrete
regular expressions used by the parser are compiled by hand into
deterministic scanners (the relevant patterns need no backtracking beyond
what is implemented, as argued in the comments at each scanner).
-/

namespace Prescripto

/-! ## JavaScript string primitives -/

/-- Whitespace characters relevant to the JS `\s` class / `String.trim` for
the inputs at hand (line splitting removes `'\n'` beforehand, but it is
included for faithfulness). -/
def isWsChar (c : Char) : Bool :=
  c = ' ' || c = '\t' || c = '\n' || c = '\r' || c = '\x0b' || c = '\x0c'

/-- JS `String.prototype.trim`. -/
def jsTrim (s : String) : String :=
  String.mk (((s.toList.dropWhile isWsChar).reverse.dropWhile isWsChar).reverse)

/-- Is `needle` a prefix of `hay` (character lists)? -/
def isPrefixB : List Char → List Char → Bool
  | [], _ => true
  | _ :: _, [] => false
  | a :: as, b :: bs => a = b && isPrefixB as bs

/-- Does `hay` contain `needle` as a contiguous substring?  Mirrors JS
`hay.includes(needle)`; an empty needle is always contained. -/
def containsL (needle : List Char) : List Char → Bool
  | [] => needle.isEmpty
  | c :: cs => isPrefixB needle (c :: cs) || containsL needle cs

/-- JS `hay.includes(needle)` on strings. -/
def jsIncludes (hay needle : String) : Bool :=
  containsL needle.toList hay.toList

/-- JS `String.prototype.toLowerCase` (ASCII-faithful). -/
def lowerStr (s : String) : String := String.mk (s.toList.map Char.toLower)

/-- JS `text.split('\n')` on character lists: `"a\nb" ↦ [['a'],['b']]`,
with empty segments kept (`"" ↦ [[]]`, trailing `'\n'` yields a trailing
empty segment), exactly as `String.prototype.split`. -/
def splitOnNl : List Char → List (List Char)
  | [] => [[]]
  | c :: rest =>
    if c = '\n' then [] :: splitOnNl rest
    else
      match splitOnNl rest with
      | l :: ls => (c :: l) :: ls
      | [] => [[c]]

/-- JS `text.split('\n')`. -/
def splitLines (text : String) : List String :=
  (splitOnNl text.toList).map String.mk

/-- JS `text.split('\n').filter(line => line.trim())` — the non-blank lines of
the raw OCR text, in document order (both parsers start this way). -/
def nonBlankLines (text : String) : List String :=
  (splitLines text).filter (fun line => jsTrim line ≠ "")

/-! ## Field extraction

`extractField` in `ocrProcessor.js` (and its copy in
`PrescriptionUpload.jsx`): scan the lines in order; the first line whose
lowercase content contains one of the keywords is returned after
`line.replace(/^[^:]*:?\s*/, '').trim()`.  `[^:]*` is greedy, so on a line
with no colon the whole line is consumed and the result is empty. -/

/-- JS `line.replace(/^[^:]*:?\s*/, '').trim()`: drop the maximal colon-free
run, an optional colon, then whitespace; finally trim. -/
def stripLabel (line : String) : String :=
  let rest := line.toList.dropWhile (fun c => c != ':')
  let rest2 := match rest with
    | ':' :: t => t
    | _ => rest
  jsTrim (String.mk (rest2.dropWhile isWsChar))

/-- Does the line's lowercase content contain one of the keywords?  This is
the inner loop of `extractField`. -/
def lineMatches (keywords : List String) (line : String) : Bool :=
  keywords.any (fun k => jsIncludes (lowerStr line) k)

/-- Function `extractField(keywords)` of `ocrProcessor.js`: first matching line,
label-stripped; `null` when no line matches. -/
def extractField (lines keywords : List String) : Option String :=
  match lines with
  | [] => none
  | line :: rest =>
    if lineMatches keywords line then some (stripLabel line)
    else extractField rest keywords

/-! ## Medication-line regex scanners (backend parser)

Each scanner follows the corresponding JS regex applied via
`line.match(...)`: JS tries the pattern at every start position from the
left and returns the first success; within a position, alternations are
tried in written order and greedy quantifiers backtrack.  For the concrete
patterns here the greedy choices never need to backtrack except for the
optional decimal part of the dosage (handled explicitly below), because no
later literal can begin with a character the greedy part consumes. -/

/-- Greedy `\d+` split. -/
def takeDigits (cs : List Char) : List Char × List Char :=
  (cs.takeWhile Char.isDigit, cs.dropWhile Char.isDigit)

/-- Greedy `\s*`. -/
def skipWs (cs : List Char) : List Char := cs.dropWhile isWsChar

/-- Case-insensitive literal match (`lit` given in lowercase); returns the
remaining input on success. -/
def matchLit : List Char → List Char → Option (List Char)
  | [], cs => some cs
  | _ :: _, [] => none
  | l :: ls, c :: cs => if c.toLower = l then matchLit ls cs else none

/-- Try a parser at every start position, leftmost success first —
JS `String.prototype.match` position scanning. -/
def scanFor {α : Type} (f : List Char → Option α) : List Char → Option α
  | [] => f []
  | c :: cs =>
    match f (c :: cs) with
    | some r => some r
    | none => scanFor f cs

/-- Dosage units `(mg|ml|g|mcg|iu)` in the regex's alternation order. -/
def dosageUnits : List (List Char) :=
  [['m', 'g'], ['m', 'l'], ['g'], ['m', 'c', 'g'], ['i', 'u']]

/-- Match one dosage unit (first alternative that fits), returning it. -/
def matchUnit (cs : List Char) : Option (List Char) :=
  dosageUnits.findSome? (fun u => (matchLit u cs).map (fun _ => u))

/-- Regex `/(\d+(?:\.\d+)?)\s*(mg|ml|g|mcg|iu)/i` at one position.  The optional
decimal group is tried greedily first and dropped on failure (JS
backtracking); `\d+` itself never backtracks usefully since no unit or `.`
begins with a digit.  On success the JS code returns
`match[1] + match[2].toLowerCase()`. -/
def dosageAt (cs : List Char) : Option String :=
  let (ds, rest) := takeDigits cs
  if ds.isEmpty then none
  else
    let noDec : Option String :=
      (matchUnit (skipWs rest)).map (fun u => String.mk (ds ++ u))
    match rest with
    | '.' :: r2 =>
      let (ds2, r3) := takeDigits r2
      if ds2.isEmpty then noDec
      else
        match matchUnit (skipWs r3) with
        | some u => some (String.mk (ds ++ '.' :: ds2 ++ u))
        | none => noDec
    | _ => noDec

/-- Function `extractDosage` of `ocrProcessor.js`: first regex match rendered as
`number ++ unit`, else the empty string. -/
def extractDosage (line : String) : String :=
  (scanFor dosageAt line.toList).getD ""

/-- Regex `/(\d+)\s*times?\s*(?:a\s*)?day/i` at one position, returning the digit
capture.  The optional `s` / `a` are taken greedily when present; skipping
them cannot succeed where taking them fails because the following literal
(`day`) starts with `d`. -/
def freqNumericAt (useDaily : Bool) (cs : List Char) : Option (List Char) :=
  let (ds, r) := takeDigits cs
  if ds.isEmpty then none
  else
    match matchLit ['t', 'i', 'm', 'e'] (skipWs r) with
    | none => none
    | some r2 =>
      let r3 := match r2 with
        | c :: t => if c.toLower = 's' then t else r2
        | [] => r2
      if useDaily then
        (matchLit ['d', 'a', 'i', 'l', 'y'] (skipWs r3)).map (fun _ => ds)
      else
        let r4 := skipWs r3
        let r5 := match r4 with
          | c :: t => if c.toLower = 'a' then skipWs t else r4
          | [] => r4
        (matchLit ['d', 'a', 'y'] r5).map (fun _ => ds)

/-- Regex `/word\s*daily/i` at one position (for `once|twice|thrice daily`). -/
def wordDailyAt (w : List Char) (cs : List Char) : Bool :=
  match matchLit w cs with
  | some r => (matchLit ['d', 'a', 'i', 'l', 'y'] (skipWs r)).isSome
  | none => false

/-- Outcome of one frequency pattern: a digit capture (`match[1]`) or a
group-less match. -/
inductive FreqMatch : Type
  | grp (ds : List Char)
  | nogrp
deriving Repr, DecidableEq

/-- The eight frequency patterns of `extractFrequency`, in order. -/
def freqPatterns (line : String) : List (Option FreqMatch) :=
  let cs := line.toList
  let low := lowerStr line
  [ (scanFor (freqNumericAt false) cs).map .grp,
    (scanFor (freqNumericAt true) cs).map .grp,
    if (scanFor (fun s => if wordDailyAt ['o', 'n', 'c', 'e'] s then some () else none) cs).isSome
      then some .nogrp else none,
    if (scanFor (fun s => if wordDailyAt ['t', 'w', 'i', 'c', 'e'] s then some () else none) cs).isSome
      then some .nogrp else none,
    if (scanFor (fun s => if wordDailyAt ['t', 'h', 'r', 'i', 'c', 'e'] s then some () else none) cs).isSome
      then some .nogrp else none,
    if jsIncludes low "bid" then some .nogrp else none,
    if jsIncludes low "tid" then some .nogrp else none,
    if jsIncludes low "qid" then some .nogrp else none ]

/-- The body of the `if (match)` block of `extractFrequency`: a digit
capture gives `"N times daily"`; otherwise the six `includes` checks run in
order; if none hits, the JS loop continues with the next pattern (`none`). -/
def freqResolve (line : String) : FreqMatch → Option String
  | .grp ds => some (String.mk ds ++ " times daily")
  | .nogrp =>
    let low := lowerStr line
    if jsIncludes low "once" then some "Once daily"
    else if jsIncludes low "twice" then some "Twice daily"
    else if jsIncludes low "thrice" then some "Three times daily"
    else if jsIncludes low "bid" then some "Twice daily"
    else if jsIncludes low "tid" then some "Three times daily"
    else if jsIncludes low "qid" then some "Four times daily"
    else none

/-- Function `extractFrequency` of `ocrProcessor.js`. -/
def extractFrequency (line : String) : String :=
  ((freqPatterns line).findSome? (fun p => p.bind (freqResolve line))).getD ""

/-- Duration units `(days?|weeks?|months?)` in alternation order, with the
greedy optional `s`; returns the captured unit text (already lowercase —
the JS code lowercases `match[2]`). -/
def durUnitMatch (cs : List Char) : Option (List Char) :=
  [['d', 'a', 'y'], ['w', 'e', 'e', 'k'], ['m', 'o', 'n', 't', 'h']].findSome?
    (fun u =>
      match matchLit u cs with
      | some r =>
        match r with
        | c :: _ => if c.toLower = 's' then some (u ++ ['s']) else some u
        | [] => some u
      | none => none)

/-- Regex `/(?:for\s*)?(\d+)\s*(days?|weeks?|months?)/i` at one position, digits
first.  The optional `for\s*` prefix never changes the captured groups: a
match starting at `for` captures the same digits/unit as the match starting
at the digits, and no digit can occur inside the consumed `for\s*` span, so
scanning for the digit-anchored core finds exactly the groups of the
leftmost JS match. -/
def durationAt (cs : List Char) : Option String :=
  let (ds, r) := takeDigits cs
  if ds.isEmpty then none
  else (durUnitMatch (skipWs r)).map (fun u => String.mk (ds ++ ' ' :: u))

/-- Function `extractDuration` of `ocrProcessor.js`: first match rendered as
`number ++ " " ++ unit`, else the empty string. -/
def extractDuration (line : String) : String :=
  (scanFor durationAt line.toList).getD ""

/-! ## Medication extraction (backend parser) -/

/-- A parsed medication candidate (`ocrProcessor.js`). -/
structure ParsedMedication : Type where
  name : String
  dosage : String
  frequency : String
  duration : String
deriving Repr, DecidableEq

/-- The medication keyword set of the backend parser. -/
def medicationKeywords : List String :=
  ["tablet", "capsule", "syrup", "mg", "ml", "dose", "tab", "cap"]

/-- JS `line.split(/\s+/)[0] || ''`: the leading run of non-whitespace
characters (empty when the line starts with whitespace, because a leading
separator match makes `split` produce a leading empty string). -/
def medName (line : String) : String :=
  String.mk (line.toList.takeWhile (fun c => !isWsChar c))

/-- One candidate medication from a line. -/
def parseMedLine (line : String) : ParsedMedication :=
  { name := medName line
    dosage := extractDosage line
    frequency := extractFrequency line
    duration := extractDuration line }

/-- Does a line pass the medication-keyword test of the backend parser? -/
def medLineKw (line : String) : Bool :=
  medicationKeywords.any (fun k => jsIncludes (lowerStr line) k)

/-- Function `extractMedications` of `ocrProcessor.js`: push a parsed candidate for
every keyword line, but only `if (medication.name)` — i.e. only when the
first whitespace-delimited token is non-empty. -/
def extractMedications : List String → List ParsedMedication
  | [] => []
  | line :: rest =>
    if medLineKw line then
      let m := parseMedLine line
      if m.name = "" then extractMedications rest
      else m :: extractMedications rest
    else extractMedications rest

/-- Result record of `extractPrescriptionData`. -/
structure PrescriptionData : Type where
  doctorName : Option String
  patientName : Option String
  date : Option String
  diagnosis : Option String
  medications : List ParsedMedication
  instructions : Option String
deriving Repr, DecidableEq

def doctorKeywords : List String := ["dr", "doctor", "physician", "md"]
def patientKeywords : List String := ["patient", "name", "mr", "mrs", "ms"]
def dateKeywords : List String := ["date", "dated"]
def diagnosisKeywords : List String := ["diagnosis", "condition", "complaint"]
def instructionsKeywords : List String :=
  ["instructions", "directions", "advice", "note"]

/-- Function `extractPrescriptionData` of `ocrProcessor.js`. -/
def extractPrescriptionData (text : String) : PrescriptionData :=
  let lines := nonBlankLines text
  { doctorName := extractField lines doctorKeywords
    patientName := extractField lines patientKeywords
    date := extractField lines dateKeywords
    diagnosis := extractField lines diagnosisKeywords
    medications := extractMedications lines
    instructions := extractField lines instructionsKeywords }

/-! ## Prescription records (`models/Prescription.js`) -/

/-- Lifecycle status enum of the prescription schema. -/
inductive PStatus : Type
  | pending_upload
  | uploaded
  | processing
  | pending_verification
  | verified
  | rejected
  | expired
  | fulfilled
deriving Repr, DecidableEq

/-- The `verificationStatus` sub-document. -/
structure VerificationStatus : Type where
  isVerified : Bool
  verifiedBy : Option String
  verifiedAt : Option Nat
  verificationNotes : Option String
  rejectionReason : Option String
deriving Repr, DecidableEq

/-- A calendar date, ordered lexicographically.  `setFullYear(y+1)` on
Feb 29 normalises to Mar 1 in JS; either way the year strictly increases,
which is all the development relies on, so the model keeps month/day. -/
structure DateYMD : Type where
  year : Int
  month : Nat
  day : Nat
deriving Repr, DecidableEq

/-- Calendar order on dates. -/
def dateLe (a b : DateYMD) : Prop :=
  a.year < b.year ∨
    (a.year = b.year ∧ (a.month < b.month ∨ (a.month = b.month ∧ a.day ≤ b.day)))

instance (a b : DateYMD) : Decidable (dateLe a b) := by
  unfold dateLe; infer_instance

/-- JS `new Date(d).setFullYear(d.getFullYear() + 1)`. -/
def plusOneYear (d : DateYMD) : DateYMD := { d with year := d.year + 1 }

/-- A medication sub-document of the prescription schema. -/
structure Medication : Type where
  name : String
  dosage : String
  frequency : String
  duration : String
  instructions : Option String
  quantity : Nat
  refills : Nat
deriving Repr, DecidableEq

/-- An attached prescription image (url plus metadata; only the url matters
to the OCR pipeline). -/
structure ImageIn : Type where
  url : String
  originalName : String
  size : Nat
  mimeType : String
deriving Repr, DecidableEq

/-- The prescription document (fields the verified claims touch). -/
structure PrescriptionRec : Type where
  patient : String
  doctorName : String
  doctorLicenseNumber : String
  medications : List Medication
  images : List ImageIn
  extractedText : Option String
  ocrConfidence : Option Nat
  status : PStatus
  verificationStatus : VerificationStatus
  prescriptionDate : DateYMD
  expiryDate : DateYMD
  refillsUsed : Nat
  orders : List Nat
deriving Repr, DecidableEq

/-- The `remainingRefills` virtual:
`Math.max(0, medications.reduce((t, med) => t + med.refills, 0) - refillsUsed)`. -/
def remainingRefills (rec : PrescriptionRec) : Int :=
  max 0 (rec.medications.foldl (fun total med => total + (med.refills : Int)) 0
    - (rec.refillsUsed : Int))

/-- The expiry-defaulting part of the schema's pre-save hook: set
`expiryDate` to `prescriptionDate` plus one year when the record reaches
`save` with no expiry date but with a prescription date. -/
def preSaveExpiry (expiryDate : Option DateYMD) (prescriptionDate : Option DateYMD) :
    Option DateYMD :=
  match expiryDate, prescriptionDate with
  | none, some d => some (plusOneYear d)
  | e, _ => e

/-! ## Errors and OCR -/

/-- Class `AppError(message, statusCode)` — the repository's single error class. -/
structure AppErr : Type where
  message : String
  statusCode : Nat
deriving Repr, DecidableEq

/-- Result of `processOCR` (`ocrProcessor.js`): trimmed text and a rounded
confidence. -/
structure OcrResult : Type where
  text : String
  confidence : Nat
deriving Repr, DecidableEq

/-- An OCR engine: may fail (`processOCR` throws on engine error). -/
def OcrEngine : Type := String → Except Unit OcrResult

/-! ## `verifyPrescription` (prescription controller)

The controller is modelled on an already-fetched record (the 404 branch for
a missing id is outside the claims).  An `Except.error` result means the
handler returned before any mutation, so the stored record is unchanged. -/

/-- Body of `PATCH /prescriptions/:id/verify`. -/
structure VerifyReq : Type where
  isApproved : Bool
  notes : Option String
  rejectionReason : Option String
deriving Repr, DecidableEq

/-- Controller `verifyPrescription`: reject already-verified records with
`AppError('Prescription is already verified', 400)`; otherwise set the
verification sub-record and move the status to `verified`/`rejected`. -/
def verifyPrescription (rec : PrescriptionRec) (req : VerifyReq)
    (pharmacist : String) (now : Nat) : Except AppErr PrescriptionRec :=
  if rec.status = PStatus.verified then
    Except.error { message := "Prescription is already verified", statusCode := 400 }
  else
    Except.ok { rec with
      verificationStatus :=
        { isVerified := req.isApproved
          verifiedBy := some pharmacist
          verifiedAt := some now
          verificationNotes := req.notes
          rejectionReason := if req.isApproved then none else req.rejectionReason }
      status := if req.isApproved then PStatus.verified else PStatus.rejected }

/-! ## `uploadPrescription` (prescription controller)

`POST /prescriptions`: validate presence of the required fields, build the
record with `expiryDate` always computed as `prescriptionDate` plus one
year (the request body carries no expiry date), run `processOCR` on the
*first* stored image only, and land in `pending_verification` whether or
not OCR succeeds.  Side-channel effects (pharmacist notification emails,
logging) are fire-and-forget in the source and are not modelled.  The model
additionally records the list of image URLs handed to `processOCR`. -/

/-- Body of `POST /prescriptions` (fields the claims touch; JS falsiness of
a missing/empty field is modelled with `Option`/emptiness checks). -/
structure UploadRequest : Type where
  patient : String
  doctorName : String
  doctorLicenseNumber : String
  medications : Option (List Medication)
  images : List ImageIn
  prescriptionDate : Option DateYMD
deriving Repr, DecidableEq

/-- Result of a successful upload: the saved record plus the URLs that were
put through `processOCR`. -/
structure UploadResult : Type where
  record : PrescriptionRec
  ocrCalls : List String
deriving Repr, DecidableEq

/-- Controller `uploadPrescription`. -/
def uploadPrescription (ocr : OcrEngine) (req : UploadRequest) :
    Except AppErr UploadResult :=
  if req.doctorName = "" ∨ req.doctorLicenseNumber = "" ∨
      req.medications = none ∨ req.prescriptionDate = none then
    Except.error { message := "Missing required prescription information", statusCode := 400 }
  else
    let pDate := (req.prescriptionDate).getD { year := 0, month := 1, day := 1 }
    let base : PrescriptionRec :=
      { patient := req.patient
        doctorName := req.doctorName
        doctorLicenseNumber := req.doctorLicenseNumber
        medications := (req.medications).getD []
        images := req.images
        extractedText := none
        ocrConfidence := none
        status := PStatus.uploaded
        verificationStatus :=
          { isVerified := false, verifiedBy := none, verifiedAt := none
            verificationNotes := none, rejectionReason := none }
        prescriptionDate := pDate
        expiryDate := plusOneYear pDate
        refillsUsed := 0
        orders := [] }
    match req.images with
    | [] =>
      Except.ok { record := { base with status := PStatus.pending_verification }, ocrCalls := [] }
    | img :: _ =>
      match ocr img.url with
      | Except.ok r =>
        Except.ok
          { record := { base with
              extractedText := some r.text
              ocrConfidence := some r.confidence
              status := PStatus.pending_verification }
            ocrCalls := [img.url] }
      | Except.error _ =>
        Except.ok { record := { base with status := PStatus.pending_verification }
                    ocrCalls := [img.url] }

/-- Controller `reprocessPrescription` (`POST /prescriptions/:id/reprocess`): 400 when
the record has no images; otherwise OCR the *first* image, overwrite
`extractedText`/`ocrConfidence`, status back to `pending_verification`
(500 surfaced when the engine fails).  The second component is the list of
URLs handed to `processOCR`. -/
def reprocessPrescription (ocr : OcrEngine) (rec : PrescriptionRec) :
    Except AppErr PrescriptionRec × List String :=
  match rec.images with
  | [] =>
    (Except.error { message := "No images available for processing", statusCode := 400 }, [])
  | img :: _ =>
    match ocr img.url with
    | Except.ok r =>
      (Except.ok { rec with
          extractedText := some r.text
          ocrConfidence := some r.confidence
          status := PStatus.pending_verification },
        [img.url])
    | Except.error _ =>
      (Except.error { message := "Failed to reprocess prescription", statusCode := 500 },
        [img.url])

/-! ## `createOrder` (order controller)

The item loop: look the product up, require it active, require stock, and
for `prescriptionRequired` products require a supplied prescription whose
medication names match the product name by case-insensitive substring
containment in either direction; any failure aborts the handler before
`Order.create` runs, so no order document is created (the in-loop stock
reservations of already-processed items do persist in the source; they are
not part of the order and are not modelled).  Pricing arithmetic (8% tax,
shipping) is IEEE-float glue irrelevant to the gate and is omitted. -/

/-- Catalog product (fields read by `createOrder`). -/
structure Product : Type where
  id : Nat
  name : String
  isActive : Bool
  stockQuantity : Nat
  price : Nat
  prescriptionRequired : Bool
deriving Repr, DecidableEq

/-- A medication entry of a prescription supplied with the order request
(`p.medications`, of which only `.name` is read). -/
structure OrderMed : Type where
  name : String
deriving Repr, DecidableEq

/-- A prescription supplied in the order request body. -/
structure PrescriptionIn : Type where
  id : Nat
  medications : List OrderMed
deriving Repr, DecidableEq

/-- One line of the requested order. -/
structure OrderItemIn : Type where
  productId : Nat
  quantity : Nat
  prescription : Option Nat
deriving Repr, DecidableEq

/-- The order line stored on the created order. -/
structure OrderItem : Type where
  productId : Nat
  name : String
  price : Nat
  quantity : Nat
  prescription : Option Nat
  prescriptionRequired : Bool
deriving Repr, DecidableEq

/-- The created order document (fields the claims touch). -/
structure Order : Type where
  customer : String
  items : List OrderItem
  prescriptions : List Nat
  status : String
deriving Repr, DecidableEq

/-- Query `Product.findById` over the catalog. -/
def findProduct (products : List Product) (pid : Nat) : Option Product :=
  products.find? (fun p => p.id = pid)

/-- The gate's match test:
`med.name.toLowerCase().includes(product.name.toLowerCase()) ||
 product.name.toLowerCase().includes(med.name.toLowerCase())` over
`p.medications.some(...)`. -/
def medsMatch (p : PrescriptionIn) (productName : String) : Bool :=
  p.medications.any (fun med =>
    jsIncludes (lowerStr med.name) (lowerStr productName) ||
    jsIncludes (lowerStr productName) (lowerStr med.name))

/-- JS `prescriptions?.find(p => ...)` — is some supplied prescription a match
for the product? -/
def hasValidPrescription (prescriptions : List PrescriptionIn) (productName : String) : Bool :=
  prescriptions.any (fun p => medsMatch p productName)

/-- The per-item loop of `createOrder`, accumulating the order items. -/
def processItems (products : List Product) (prescriptions : List PrescriptionIn) :
    List OrderItemIn → Except AppErr (List OrderItem)
  | [] => Except.ok []
  | item :: rest =>
    match findProduct products item.productId with
    | none =>
      Except.error
        { message := "Product " ++ toString item.productId ++ " not found or inactive"
          statusCode := 400 }
    | some product =>
      if !product.isActive then
        Except.error
          { message := "Product " ++ toString item.productId ++ " not found or inactive"
            statusCode := 400 }
      else if product.stockQuantity < item.quantity then
        Except.error { message := "Insufficient stock for " ++ product.name, statusCode := 400 }
      else if product.prescriptionRequired ∧
          !hasValidPrescription prescriptions product.name then
        Except.error { message := "Prescription required for " ++ product.name, statusCode := 400 }
      else
        (processItems products prescriptions rest).map
          (fun out =>
            { productId := product.id
              name := product.name
              price := product.price
              quantity := item.quantity
              prescription := item.prescription
              prescriptionRequired := product.prescriptionRequired } :: out)

/-- Controller `createOrder` (`POST /orders`): presence checks, then the item loop,
then `Order.create` with status `pending`. -/
def createOrder (products : List Product) (customer : String)
    (items : List OrderItemIn) (shippingAddress : Option String)
    (prescriptions : List PrescriptionIn) : Except AppErr Order :=
  if items = [] then
    Except.error { message := "Order must contain at least one item", statusCode := 400 }
  else if shippingAddress = none then
    Except.error { message := "Shipping address is required", statusCode := 400 }
  else
    (processItems products prescriptions items).map
      (fun out =>
        { customer := customer
          items := out
          prescriptions := prescriptions.map (fun p => p.id)
          status := "pending" })

/-! ## Client-side flow (`src/pages/PrescriptionUpload.jsx`)

The upload page runs Tesseract locally: `processWithOCR` loops over *all*
selected files, recognising each one and concatenating the text
(`allText += text + '\n\n'`).  The page's simplified parser keeps the
medications as plain strings and substitutes a sentinel string when nothing
matched. -/

/-- Loop of `processWithOCR`'s recognition loop over the selected files, with the
per-file OCR function abstracted: returns the accumulated text and the list
of files put through recognition, in order. -/
def processWithOCR (ocr : String → String) (files : List String) : String × List String :=
  files.foldl (fun acc f => (acc.1 ++ ocr f ++ "\n\n", acc.2 ++ [f])) ("", [])

/-- The medication keyword set of the client-side parser (no `tab`/`cap`). -/
def feMedicationKeywords : List String :=
  ["tablet", "capsule", "syrup", "mg", "ml", "dose"]

/-- Keyword test of the client-side `extractMedications`. -/
def feMedLineKw (line : String) : Bool :=
  feMedicationKeywords.any (fun k => jsIncludes (lowerStr line) k)

/-- The collection loop of the client-side `extractMedications`. -/
def collectMedsFE : List String → List String
  | [] => []
  | line :: rest =>
    if feMedLineKw line then jsTrim line :: collectMedsFE rest
    else collectMedsFE rest

/-- Client-side `extractMedications`: keyword lines, trimmed, with the
sentinel singleton `['No medications detected']` when nothing matched. -/
def extractMedicationsFE (lines : List String) : List String :=
  let medications := collectMedsFE lines
  if medications.length > 0 then medications else ["No medications detected"]

/-! ## Claim-wording reference definition (refinement comparison)

The specification describes the field extractor as returning the first
matching line "with everything up to and including an optional leading
`label:` prefix stripped".  The definition below follows that wording: the
label prefix is stripped only when a colon is actually present; a line
without one is returned (trimmed) intact.  It exists solely to be compared
against `extractField`, which was translated from the source. -/

/-- Claim-wording variant of the label stripping: remove the prefix up to
and including the first colon when the line has one, otherwise keep the
line. -/
def stripLabelClaimed (line : String) : String :=
  match line.toList.dropWhile (fun c => c != ':') with
  | ':' :: t => jsTrim (String.mk (t.dropWhile isWsChar))
  | _ => jsTrim line

/-- Claim-wording variant of the field extractor. -/
def extractFieldClaimed (lines keywords : List String) : Option String :=
  (lines.find? (lineMatches keywords)).map stripLabelClaimed

/-! ## Helper lemmas -/

/-- The recursive `extractField` loop is first-match-wins: it returns the
label-stripped first matching line. -/
theorem extractField_eq_find (lines keywords : List String) :
    extractField lines keywords =
      (lines.find? (lineMatches keywords)).map stripLabel := by
  induction lines with
  | nil => rfl
  | cons line rest ih =>
    by_cases h : lineMatches keywords line
    · simp [extractField, h, List.find?_cons_of_pos]
    · simpa [extractField, h, List.find?_cons_of_neg _ h] using ih

/-- When no line matches, `extractField` returns the `null` sentinel. -/
theorem extractField_eq_none (lines keywords : List String)
    (h : ∀ l ∈ lines, lineMatches keywords l = false) :
    extractField lines keywords = none := by
  rw [extractField_eq_find]
  have : lines.find? (lineMatches keywords) = none := by
    rw [List.find?_eq_none]
    intro l hl
    simp [h l hl]
  simp [this]

/-- Medication-refill sum: the `reduce` of the virtual equals the sum of
the mapped refill counts. -/
theorem foldl_refills (meds : List Medication) (a : Int) :
    meds.foldl (fun total med => total + (med.refills : Int)) a =
      a + (meds.map (fun med => (med.refills : Int))).sum := by
  induction meds generalizing a with
  | nil => simp
  | cons m rest ih =>
    simp [List.foldl_cons, ih, List.sum_cons]
    ring

/-! ## C9 -/

/-- C9.  For every prescription record, `remainingRefills` equals
`max 0 (sum of the medications' refills − refillsUsed)` and is therefore
never negative, whatever `refillsUsed` is. -/
theorem remainingRefills_spec (rec : PrescriptionRec) :
    remainingRefills rec =
      max 0 ((rec.medications.map (fun med => (med.refills : Int))).sum
        - (rec.refillsUsed : Int)) ∧
    0 ≤ remainingRefills rec := by
  constructor
  · unfold remainingRefills
    rw [foldl_refills]
    simp
  · exact le_max_left 0 _

/-! ## C3 -/

/-- C3.  The backend medication extractor parses the line
`"Amoxicillin 250mg tablet twice daily for 7 days"` into a single
medication with dosage `"250mg"`, frequency `"Twice daily"` and duration
`"7 days"` (name: first token `"Amoxicillin"`). -/
theorem parse_amoxicillin_line :
    (extractPrescriptionData "Amoxicillin 250mg tablet twice daily for 7 days").medications =
      [{ name := "Amoxicillin", dosage := "250mg",
         frequency := "Twice daily", duration := "7 days" }] := by
  decide

/-! ## C4 -/

/-- C4 counterexample.  The line `"Dr Smith"` matches the doctor keyword
`"dr"` but contains no colon, and the greedy `/^[^:]*:?\s*/` replacement
then erases the whole line: the source extractor returns `some ""`, not the
line with an (absent) label prefix stripped, which per the claim's wording
would be `some "Dr Smith"`. -/
theorem extractField_colonless_counterexample :
    extractField ["Dr Smith"] doctorKeywords = some "" ∧
    extractFieldClaimed ["Dr Smith"] doctorKeywords = some "Dr Smith" ∧
    extractField ["Dr Smith"] doctorKeywords ≠
      extractFieldClaimed ["Dr Smith"] doctorKeywords := by
  decide

/-- C4 amended.  For every field keyword set, the extractor scans the lines
in document order and returns the first line whose lowercase content
contains a keyword, stripped of its maximal colon-free prefix, an optional
colon and following whitespace (so a matching line without any colon yields
the empty string); when no line matches it returns the `none` sentinel.
First match always wins; there is no scoring. -/
theorem extractField_first_match_strip (lines keywords : List String) :
    extractField lines keywords =
      (lines.find? (lineMatches keywords)).map stripLabel ∧
    (∀ line : String, ':' ∉ line.toList → stripLabel line = "") := by
  refine ⟨extractField_eq_find lines keywords, ?_⟩
  intro line h
  have hdrop : line.toList.dropWhile (fun c => c != ':') = [] := by
    rw [List.dropWhile_eq_nil_iff]
    intro c hc
    simp only [bne_iff_ne, ne_eq]
    intro heq
    exact h (heq ▸ hc)
  simp only [stripLabel, hdrop]
  rfl

/-- C4 amended, witness: on `["Patient: John", "Dr Smith"]` with the doctor
keywords the first matching line is `"Dr Smith"`(the first line matches no
doctor keyword), and being colonless it is stripped to the empty string. -/
theorem extractField_first_match_strip_witness :
    extractField ["Patient: John", "Dr Smith"] doctorKeywords =
      (["Patient: John", "Dr Smith"].find? (lineMatches doctorKeywords)).map stripLabel ∧
    stripLabel "Dr Smith" = "" := by
  have h := extractField_first_match_strip ["Patient: John", "Dr Smith"] doctorKeywords
  exact ⟨h.1, h.2 "Dr Smith" (by decide)⟩

/-! ## C5 -/

/-- C5.  The backend parser is total by construction in this embedding (it
is a Lean function on arbitrary strings); the content of the claim is that
a field with no matching line yields the `none` sentinel rather than an
error, for each of the five named fields. -/
theorem parser_no_match_sentinel (text : String) :
    ((∀ l ∈ nonBlankLines text, lineMatches doctorKeywords l = false) →
      (extractPrescriptionData text).doctorName = none) ∧
    ((∀ l ∈ nonBlankLines text, lineMatches patientKeywords l = false) →
      (extractPrescriptionData text).patientName = none) ∧
    ((∀ l ∈ nonBlankLines text, lineMatches dateKeywords l = false) →
      (extractPrescriptionData text).date = none) ∧
    ((∀ l ∈ nonBlankLines text, lineMatches diagnosisKeywords l = false) →
      (extractPrescriptionData text).diagnosis = none) ∧
    ((∀ l ∈ nonBlankLines text, lineMatches instructionsKeywords l = false) →
      (extractPrescriptionData text).instructions = none) := by
  refine ⟨fun h => ?_, fun h => ?_, fun h => ?_, fun h => ?_, fun h => ?_⟩ <;>
    simpa [extractPrescriptionData] using extractField_eq_none _ _ h

/-- C5 witness: the input `"xyzzy"` contains no field keyword at all, and
every field of the parse is the `none` sentinel (no exception anywhere). -/
theorem parser_no_match_sentinel_witness :
    (extractPrescriptionData "xyzzy").doctorName = none ∧
    (extractPrescriptionData "xyzzy").patientName = none ∧
    (extractPrescriptionData "xyzzy").date = none ∧
    (extractPrescriptionData "xyzzy").diagnosis = none ∧
    (extractPrescriptionData "xyzzy").instructions = none := by
  have h := parser_no_match_sentinel "xyzzy"
  exact ⟨h.1 (by decide), h.2.1 (by decide), h.2.2.1 (by decide),
    h.2.2.2.1 (by decide), h.2.2.2.2 (by decide)⟩

/-! ## C6 -/

/-- C6 counterexample.  The non-blank line `" Amoxicillin 500mg"` (note the
leading space) has lowercase content containing the keyword `"mg"`, yet the
backend extractor produces no medication entry for it: `split(/\s+/)[0]` is
the empty string for a line starting with whitespace, and the
`if (medication.name)` guard then drops the candidate.  So keyword
containment alone does not make a line a medication line. -/
theorem medication_keyword_line_dropped :
    nonBlankLines " Amoxicillin 500mg" = [" Amoxicillin 500mg"] ∧
    medLineKw " Amoxicillin 500mg" = true ∧
    (extractPrescriptionData " Amoxicillin 500mg").medications = [] := by
  decide

/-- C6 amended.  A line yields a medication entry iff its lowercase content
contains at least one keyword of
`{tablet, capsule, syrup, mg, ml, dose, tab, cap}` *and* its first
whitespace-delimited token is non-empty (lines beginning with whitespace
are dropped by the `if (medication.name)` guard); each retained line is
parsed by the dosage/frequency/duration scanners. -/
theorem extractMedications_characterization (lines : List String) :
    extractMedications lines =
      (lines.filter (fun l => medLineKw l && (medName l != ""))).map parseMedLine ∧
    (∀ line : String, medLineKw line = true ↔
      ∃ k ∈ medicationKeywords, jsIncludes (lowerStr line) k = true) := by
  constructor
  · induction lines with
    | nil => rfl
    | cons line rest ih =>
      by_cases hk : medLineKw line
      · by_cases hn : medName line = ""
        · have : (parseMedLine line).name = "" := hn
          simp [extractMedications, hk, hn, this, List.filter_cons, ih]
        · have : (parseMedLine line).name = medName line := rfl
          simp [extractMedications, hk, hn, this, List.filter_cons, ih]
      · simp [extractMedications, hk, List.filter_cons, ih]
  · intro line
    simp [medLineKw, List.any_eq_true]

/-! ## C10 -/

/-- A keyword-free line list collects no client-side medications. -/
theorem collectMedsFE_eq_nil (lines : List String)
    (h : ∀ l ∈ lines, feMedLineKw l = false) : collectMedsFE lines = [] := by
  induction lines with
  | nil => rfl
  | cons line rest ih =>
    have hl : feMedLineKw line = false := h line (by simp)
    simp only [collectMedsFE, hl, Bool.false_eq_true, if_false]
    exact ih (fun l hl2 => h l (by simp [hl2]))

/-- C10.  The client-side medication extractor always returns a non-empty
list; when no line contains a medication keyword it returns the singleton
sentinel `["No medications detected"]`.  The sentinel is an ordinary
`String` sitting in the same list position as a genuine medication line, so
nothing in the type distinguishes the no-detection case. -/
theorem extractMedicationsFE_nonempty_sentinel (lines : List String) :
    extractMedicationsFE lines ≠ [] ∧
    ((∀ l ∈ lines, feMedLineKw l = false) →
      extractMedicationsFE lines = ["No medications detected"]) := by
  constructor
  · simp only [extractMedicationsFE]
    split
    · next hlen =>
      intro hnil
      rw [hnil] at hlen
      simp at hlen
    · simp
  · intro h
    simp only [extractMedicationsFE, collectMedsFE_eq_nil lines h]
    simp

/-- C10 witness: on the single keyword-free line `"hello"` the extractor
returns exactly the sentinel list, which is non-empty. -/
theorem extractMedicationsFE_nonempty_sentinel_witness :
    extractMedicationsFE ["hello"] ≠ [] ∧
    extractMedicationsFE ["hello"] = ["No medications detected"] := by
  have h := extractMedicationsFE_nonempty_sentinel ["hello"]
  exact ⟨h.1, h.2 (by decide)⟩

/-! ## C2 -/

/-- C2 counterexample.  Re-verifying an already-`verified` record is
rejected by `verifyPrescription`, but with
`AppError('Prescription is already verified', 400)` — an HTTP 400, not the
409 conflict the claim asserts (no 409 is produced anywhere in the
repository). -/
theorem verify_already_verified_400_not_409 :
    verifyPrescription
      { patient := "u1", doctorName := "Dr A", doctorLicenseNumber := "L12345",
        medications := [], images := [], extractedText := none,
        ocrConfidence := none, status := PStatus.verified,
        verificationStatus :=
          { isVerified := true, verifiedBy := some "ph0", verifiedAt := some 0,
            verificationNotes := none, rejectionReason := none },
        prescriptionDate := { year := 2024, month := 1, day := 1 },
        expiryDate := { year := 2025, month := 1, day := 1 },
        refillsUsed := 0, orders := [] }
      { isApproved := true, notes := none, rejectionReason := none } "ph1" 5 =
      Except.error { message := "Prescription is already verified", statusCode := 400 } ∧
    (400 : Nat) ≠ 409 :=
  ⟨rfl, by decide⟩

/-- C2 amended.  Calling the verify operation on a record whose status is
already `verified` is rejected with
`AppError('Prescription is already verified')` and HTTP status 400 (not
409); the handler returns before any mutation, so the stored record is
unchanged. -/
theorem verify_already_verified_rejected (rec : PrescriptionRec)
    (req : VerifyReq) (pharmacist : String) (now : Nat)
    (h : rec.status = PStatus.verified) :
    verifyPrescription rec req pharmacist now =
      Except.error { message := "Prescription is already verified", statusCode := 400 } := by
  simp [verifyPrescription, h]

/-- C2 amended, witness: a concrete already-verified record is rejected
with the 400 error. -/
theorem verify_already_verified_rejected_witness :
    verifyPrescription
      { patient := "u2", doctorName := "Dr B", doctorLicenseNumber := "L99999",
        medications := [], images := [], extractedText := none,
        ocrConfidence := none, status := PStatus.verified,
        verificationStatus :=
          { isVerified := true, verifiedBy := some "ph0", verifiedAt := some 3,
            verificationNotes := none, rejectionReason := none },
        prescriptionDate := { year := 2023, month := 6, day := 15 },
        expiryDate := { year := 2024, month := 6, day := 15 },
        refillsUsed := 1, orders := [] }
      { isApproved := false, notes := none, rejectionReason := some "dup" } "ph2" 9 =
      Except.error { message := "Prescription is already verified", statusCode := 400 } :=
  verify_already_verified_rejected _ _ "ph2" 9 (by decide)

/-! ## C7 -/

/-- C7 counterexample.  The client-side upload flow (`processWithOCR` in
`PrescriptionUpload.jsx`) loops over *all* selected files and recognises
each of them, concatenating the text: on a two-image submission both
images are put through OCR automatically, not only the first. -/
theorem client_ocr_processes_all_files :
    (processWithOCR (fun s => s) ["imgA", "imgB"]).2 = ["imgA", "imgB"] ∧
    (processWithOCR (fun s => s) ["imgA", "imgB"]).1 = "imgA\n\nimgB\n\n" ∧
    (["imgA", "imgB"] : List String) ≠ ["imgA"] := by
  decide

/-- C7 amended.  In the backend submission pipeline, only the first stored
image is put through `processOCR` automatically by `uploadPrescription`,
and the pharmacist-triggered `reprocessPrescription` likewise re-extracts
only the first image; the client-side upload page, by contrast, runs OCR
over every selected file. -/
theorem backend_ocr_first_image_only :
    (∀ (ocr : OcrEngine) (req : UploadRequest) (res : UploadResult)
      (img : ImageIn) (rest : List ImageIn),
      uploadPrescription ocr req = Except.ok res → req.images = img :: rest →
      res.ocrCalls = [img.url]) ∧
    (∀ (ocr : OcrEngine) (rec : PrescriptionRec) (img : ImageIn)
      (rest : List ImageIn),
      rec.images = img :: rest →
      (reprocessPrescription ocr rec).2 = [img.url]) := by
  constructor
  · intro ocr req res img rest hok himg
    simp only [uploadPrescription, himg] at hok
    split at hok
    · exact absurd hok (by simp)
    · cases hocr : ocr img.url <;> rw [hocr] at hok <;>
        exact (Except.ok.injEq _ _ ▸ hok) ▸ rfl
  · intro ocr rec img rest himg
    simp only [reprocessPrescription, himg]
    cases hocr : ocr img.url <;> simp

/-- C7 amended, witness: a concrete valid two-image upload OCRs exactly the
first image URL, and reprocessing a concrete two-image record likewise
touches only the first URL. -/
theorem backend_ocr_first_image_only_witness :
    ({ record :=
        { patient := "p1", doctorName := "Dr C", doctorLicenseNumber := "L55555",
          medications := [],
          images := [{ url := "u1", originalName := "a.png", size := 10, mimeType := "image/png" },
                     { url := "u2", originalName := "b.png", size := 11, mimeType := "image/png" }],
          extractedText := some "t", ocrConfidence := some 90,
          status := PStatus.pending_verification,
          verificationStatus :=
            { isVerified := false, verifiedBy := none, verifiedAt := none,
              verificationNotes := none, rejectionReason := none },
          prescriptionDate := { year := 2024, month := 2, day := 3 },
          expiryDate := { year := 2025, month := 2, day := 3 },
          refillsUsed := 0, orders := [] }
       ocrCalls := ["u1"] } : UploadResult).ocrCalls = ["u1"] ∧
    (reprocessPrescription (fun _ => Except.ok { text := "t2", confidence := 80 })
      { patient := "p1", doctorName := "Dr C", doctorLicenseNumber := "L55555",
        medications := [],
        images := [{ url := "u1", originalName := "a.png", size := 10, mimeType := "image/png" },
                   { url := "u2", originalName := "b.png", size := 11, mimeType := "image/png" }],
        extractedText := none, ocrConfidence := none,
        status := PStatus.pending_verification,
        verificationStatus :=
          { isVerified := false, verifiedBy := none, verifiedAt := none,
            verificationNotes := none, rejectionReason := none },
        prescriptionDate := { year := 2024, month := 2, day := 3 },
        expiryDate := { year := 2025, month := 2, day := 3 },
        refillsUsed := 0, orders := [] }).2 = ["u1"] := by
  constructor
  · exact backend_ocr_first_image_only.1
      (fun _ => Except.ok { text := "t", confidence := 90 })
      { patient := "p1", doctorName := "Dr C", doctorLicenseNumber := "L55555",
        medications := some [],
        images := [{ url := "u1", originalName := "a.png", size := 10, mimeType := "image/png" },
                   { url := "u2", originalName := "b.png", size := 11, mimeType := "image/png" }],
        prescriptionDate := some { year := 2024, month := 2, day := 3 } }
      _
      { url := "u1", originalName := "a.png", size := 10, mimeType := "image/png" }
      [{ url := "u2", originalName := "b.png", size := 11, mimeType := "image/png" }]
      rfl rfl
  · exact backend_ocr_first_image_only.2
      (fun _ => Except.ok { text := "t2", confidence := 80 }) _
      { url := "u1", originalName := "a.png", size := 10, mimeType := "image/png" }
      [{ url := "u2", originalName := "b.png", size := 11, mimeType := "image/png" }]
      rfl

/-! ## C8 -/

/-- C8.  Every record produced by `uploadPrescription` satisfies
`expiryDate ≥ prescriptionDate`: the controller always computes
`expiryDate` as the prescription date plus one year (the request body
carries no expiry date, so none is ever supplied at creation), and the
schema's pre-save hook applies the same plus-one-year default whenever a
record reaches `save` without an expiry date. -/
theorem upload_expiry_invariant :
    (∀ (ocr : OcrEngine) (req : UploadRequest) (res : UploadResult),
      uploadPrescription ocr req = Except.ok res →
      res.record.expiryDate = plusOneYear res.record.prescriptionDate ∧
      dateLe res.record.prescriptionDate res.record.expiryDate) ∧
    (∀ d : DateYMD, preSaveExpiry none (some d) = some (plusOneYear d)) := by
  have hle : ∀ d : DateYMD, dateLe d (plusOneYear d) := by
    intro d
    exact Or.inl (by simp [plusOneYear])
  constructor
  · intro ocr req res hok
    have hgoal : res.record.expiryDate = plusOneYear res.record.prescriptionDate := by
      cases himg : req.images with
      | nil =>
        simp only [uploadPrescription, himg] at hok
        split at hok
        · exact absurd hok (by simp)
        · exact (Except.ok.injEq _ _ ▸ hok) ▸ rfl
      | cons img rest =>
        simp only [uploadPrescription, himg] at hok
        split at hok
        · exact absurd hok (by simp)
        · cases hocr : ocr img.url <;> rw [hocr] at hok <;>
            exact (Except.ok.injEq _ _ ▸ hok) ▸ rfl
    exact ⟨hgoal, hgoal ▸ hle _⟩
  · intro d
    rfl

/-- C8 witness: a concrete image-free upload creates a record whose expiry
date is the prescription date plus one year, hence not earlier than it. -/
theorem upload_expiry_invariant_witness :
    ({ patient := "p2", doctorName := "Dr D", doctorLicenseNumber := "L77777",
       medications := [], images := [], extractedText := none,
       ocrConfidence := none, status := PStatus.pending_verification,
       verificationStatus :=
         { isVerified := false, verifiedBy := none, verifiedAt := none,
           verificationNotes := none, rejectionReason := none },
       prescriptionDate := { year := 2024, month := 5, day := 20 },
       expiryDate := { year := 2025, month := 5, day := 20 },
       refillsUsed := 0, orders := [] } : PrescriptionRec).expiryDate =
      plusOneYear { year := 2024, month := 5, day := 20 } ∧
    dateLe ({ year := 2024, month := 5, day := 20 } : DateYMD)
      { year := 2025, month := 5, day := 20 } ∧
    preSaveExpiry none (some { year := 2024, month := 5, day := 20 }) =
      some (plusOneYear { year := 2024, month := 5, day := 20 }) := by
  have h := upload_expiry_invariant.1
    (fun _ => Except.error ())
    { patient := "p2", doctorName := "Dr D", doctorLicenseNumber := "L77777",
      medications := some [], images := [],
      prescriptionDate := some { year := 2024, month := 5, day := 20 } }
    { record :=
        { patient := "p2", doctorName := "Dr D", doctorLicenseNumber := "L77777",
          medications := [], images := [], extractedText := none,
          ocrConfidence := none, status := PStatus.pending_verification,
          verificationStatus :=
            { isVerified := false, verifiedBy := none, verifiedAt := none,
              verificationNotes := none, rejectionReason := none },
          prescriptionDate := { year := 2024, month := 5, day := 20 },
          expiryDate := { year := 2025, month := 5, day := 20 },
          refillsUsed := 0, orders := [] }
      ocrCalls := [] }
    rfl
  exact ⟨h.1, h.2, upload_expiry_invariant.2 _⟩

/-! ## C1 -/

/-- Soundness of the item loop: an accepted item list has a matching
supplied prescription for every prescription-required product in it. -/
theorem processItems_ok_gate (products : List Product)
    (prescriptions : List PrescriptionIn) :
    ∀ (items : List OrderItemIn) (out : List OrderItem),
      processItems products prescriptions items = Except.ok out →
      ∀ item ∈ items, ∀ product : Product,
        findProduct products item.productId = some product →
        product.prescriptionRequired = true →
        hasValidPrescription prescriptions product.name = true := by
  intro items
  induction items with
  | nil =>
    intro out hok item hmem
    exact absurd hmem (by simp)
  | cons hd tl ih =>
    intro out hok item hmem product hfind hreq
    rcases List.mem_cons.mp hmem with heq | hmem2
    · subst heq
      simp only [processItems, hfind] at hok
      split at hok
      · exact absurd hok (by simp)
      · split at hok
        · exact absurd hok (by simp)
        · split at hok
          · exact absurd hok (by simp)
          · next hcond =>
            cases hval : hasValidPrescription prescriptions product.name with
            | false => exact absurd ⟨hreq, by simp [hval]⟩ hcond
            | true => rfl
    · simp only [processItems] at hok
      split at hok
      · exact absurd hok (by simp)
      · split at hok
        · exact absurd hok (by simp)
        · split at hok
          · exact absurd hok (by simp)
          · split at hok
            · exact absurd hok (by simp)
            · cases hrec : processItems products prescriptions tl with
              | error e =>
                rw [hrec] at hok
                exact absurd hok (by simp [Except.map])
              | ok out2 => exact ih out2 hrec item hmem2 product hfind hreq

/-- C1.  At order creation the gate holds: an order is created only if
every cart line whose product is `prescriptionRequired` has at least one
supplied prescription whose medication-name list matches the product name
by case-insensitive substring containment in either direction; and if any
required line lacks such a match, `createOrder` returns an error before
`Order.create` runs, so no order document is created at all. -/
theorem order_gate_requires_matching_prescription :
    (∀ (products : List Product) (customer : String) (items : List OrderItemIn)
      (shipping : Option String) (prescriptions : List PrescriptionIn) (order : Order),
      createOrder products customer items shipping prescriptions = Except.ok order →
      ∀ item ∈ items, ∀ product : Product,
        findProduct products item.productId = some product →
        product.prescriptionRequired = true →
        ∃ p ∈ prescriptions, medsMatch p product.name = true) ∧
    (∀ (products : List Product) (customer : String) (items : List OrderItemIn)
      (shipping : Option String) (prescriptions : List PrescriptionIn)
      (item : OrderItemIn) (product : Product),
      item ∈ items →
      findProduct products item.productId = some product →
      product.prescriptionRequired = true →
      (∀ p ∈ prescriptions, medsMatch p product.name = false) →
      ∃ e, createOrder products customer items shipping prescriptions = Except.error e) := by
  constructor
  · intro products customer items shipping prescriptions order hok item hmem product hfind hreq
    simp only [createOrder] at hok
    split at hok
    · exact absurd hok (by simp)
    · split at hok
      · exact absurd hok (by simp)
      · cases hrec : processItems products prescriptions items with
        | error e =>
          rw [hrec] at hok
          exact absurd hok (by simp [Except.map])
        | ok out =>
          have hval := processItems_ok_gate products prescriptions items out hrec
            item hmem product hfind hreq
          unfold hasValidPrescription at hval
          exact List.any_eq_true.mp hval
  · intro products customer items shipping prescriptions item product hmem hfind hreq hnomatch
    have hval : hasValidPrescription prescriptions product.name = false := by
      unfold hasValidPrescription
      rw [List.any_eq_false]
      intro p hp
      simp [hnomatch p hp]
    cases hco : createOrder products customer items shipping prescriptions with
    | error e => exact ⟨e, rfl⟩
    | ok order =>
      exfalso
      simp only [createOrder] at hco
      split at hco
      · exact absurd hco (by simp)
      · split at hco
        · exact absurd hco (by simp)
        · cases hrec : processItems products prescriptions items with
          | error e =>
            rw [hrec] at hco
            exact absurd hco (by simp [Except.map])
          | ok out =>
            have := processItems_ok_gate products prescriptions items out hrec
              item hmem product hfind hreq
            rw [this] at hval
            exact absurd hval (by simp)

/-- C1 witness: a cart with the prescription-required product
`"Amoxicillin 250mg"` succeeds when a supplied prescription lists
`"Amoxicillin"` (substring match), and the same cart with only an
`"Ibuprofen"` prescription fails order creation outright. -/
theorem order_gate_requires_matching_prescription_witness :
    (∃ p ∈ [({ id := 7, medications := [{ name := "Amoxicillin" }] } : PrescriptionIn)],
      medsMatch p "Amoxicillin 250mg" = true) ∧
    (∃ e, createOrder
      [{ id := 1, name := "Amoxicillin 250mg", isActive := true,
         stockQuantity := 10, price := 5, prescriptionRequired := true }]
      "cust" [{ productId := 1, quantity := 2, prescription := none }]
      (some "addr")
      [{ id := 8, medications := [{ name := "Ibuprofen" }] }] = Except.error e) := by
  constructor
  · exact order_gate_requires_matching_prescription.1
      [{ id := 1, name := "Amoxicillin 250mg", isActive := true,
         stockQuantity := 10, price := 5, prescriptionRequired := true }]
      "cust" [{ productId := 1, quantity := 2, prescription := none }]
      (some "addr")
      [{ id := 7, medications := [{ name := "Amoxicillin" }] }]
      { customer := "cust",
        items := [{ productId := 1, name := "Amoxicillin 250mg", price := 5,
                    quantity := 2, prescription := none, prescriptionRequired := true }],
        prescriptions := [7], status := "pending" }
      rfl
      { productId := 1, quantity := 2, prescription := none }
      (by decide)
      { id := 1, name := "Amoxicillin 250mg", isActive := true,
        stockQuantity := 10, price := 5, prescriptionRequired := true }
      rfl rfl
  · exact order_gate_requires_matching_prescription.2
      [{ id := 1, name := "Amoxicillin 250mg", isActive := true,
         stockQuantity := 10, price := 5, prescriptionRequired := true }]
      "cust" [{ productId := 1, quantity := 2, prescription := none }]
      (some "addr")
      [{ id := 8, medications := [{ name := "Ibuprofen" }] }]
      { productId := 1, quantity := 2, prescription := none }
      { id := 1, name := "Amoxicillin 250mg", isActive := true,
        stockQuantity := 10, price := 5, prescriptionRequired := true }
      (by decide) rfl rfl (by decide)

end Prescripto
